import Mathlib

/-!
# Student Database Management System — verification development

Shallow embedding of the core of the Student Database Management System
(`config.py`, `database.py`, `student-gui.py`) and proofs about it.

Modelling conventions:
* Python `float` values are embedded as rationals (`ℚ`); the GPA values,
  the threshold `2.2`, comparisons, averaging and two-decimal rounding are
  exact at every input the development evaluates.
* The SQLite table `student` is embedded as a list of rows plus the
  `AUTOINCREMENT` counter for the surrogate primary key.
* A Python function that can raise is embedded as a function into
  `Except`/`Option`; each distinct `raise` site of `database.py` becomes a
  distinct `DBError` constructor.
-/

/-- `config.PASS_FAIL_THRESHOLD = 2.2` — GPA strictly below this is FAIL.
Written as `mkRat 22 10` (the exact value 2.2) so that the kernel can
evaluate comparisons against it; `PASS_FAIL_THRESHOLD_eq` identifies it with
the decimal literal. -/
def PASS_FAIL_THRESHOLD : ℚ := mkRat 22 10

theorem PASS_FAIL_THRESHOLD_eq : PASS_FAIL_THRESHOLD = 2.2 := by
  show mkRat 22 10 = 2.2
  rw [Rat.mkRat_eq_divInt, Rat.divInt_eq_div]
  norm_num

/-- `config.MIN_GPA = 0.0`. -/
def MIN_GPA : ℚ := 0

/-- `config.MAX_GPA = 4.0`. -/
def MAX_GPA : ℚ := 4

/-- The exact set of characters for which Python's `str.isspace()` holds —
the characters removed by `str.strip()` with no argument: the ASCII
whitespace and separator controls, NEL, NBSP, and the Unicode space
characters. -/
def pyWhitespace : List Char :=
  ['\t', '\n', '\x0b', '\x0c', '\r', '\x1c', '\x1d', '\x1e', '\x1f', ' ',
   '\x85', '\xa0', '\u1680', '\u2000', '\u2001', '\u2002', '\u2003',
   '\u2004', '\u2005', '\u2006', '\u2007', '\u2008', '\u2009', '\u200A',
   '\u2028', '\u2029', '\u202F', '\u205F', '\u3000']

/-- Whether `str.strip()` removes this character. -/
def isPySpace (c : Char) : Bool :=
  pyWhitespace.contains c

/-- Python `s.strip()`: drop leading and trailing whitespace. -/
def pyStrip (s : String) : String :=
  String.mk (((s.toList.dropWhile isPySpace).reverse.dropWhile isPySpace).reverse)

/-- `database.calculate_status`.  The Python function receives an arbitrary
value and attempts `float(gpa)`; we embed the argument as `Option ℚ`:
`some q` when the input can be interpreted as the number `q`, `none` when the
conversion raises `ValueError`/`TypeError` (the `except` branch). -/
def calculate_status : Option ℚ → String
  | some q => if q < PASS_FAIL_THRESHOLD then "FAIL" else "PASS"
  | none => "FAIL"

/-- One row of the `student` table (`database.init_database` schema). -/
structure StudentRecord where
  id : Nat
  student_id : String
  name : String
  age : Int
  email : String
  department : String
  gpa : ℚ
  graduation_year : Int
  status : String
  deriving DecidableEq, Repr

/-- The persistent store: the `student` table rows (in insertion order) and
the `AUTOINCREMENT` counter for the `id` column (never reused). -/
structure DB where
  nextId : Nat
  rows : List StudentRecord
  deriving DecidableEq, Repr

/-- Error kinds of `database.py`; one constructor per distinct `raise` site.
`storageError` stands for the `RuntimeError` into which `get_db_connection`'s
`except sqlite3.Error` around its `yield` re-wraps any `sqlite3.Error`
raised in a `with` body (the spec's storage-kind failure).
`duplicateStudentId` is the `ValueError` of `add_student_record`'s
`except sqlite3.IntegrityError` branch; that branch is dead code — the
`IntegrityError` is already re-wrapped as a `RuntimeError` inside the
connection manager — so no modelled operation ever produces it. -/
inductive DBError where
  | emptyStudentId
  | emptyName
  | duplicateStudentId
  | emptySearch
  | studentNotFound
  | recordNotFound
  | invalidRecordId
  | storageError
  deriving DecidableEq, Repr

/-- `database.init_database`: fresh empty table; `AUTOINCREMENT` starts at 1. -/
def init_database : DB := ⟨1, []⟩

/-- `database.add_student_record`.  Mirrors the Python control flow: blank
`student_id` / blank `name` raise first (plain `ValueError`s, untouched by
the connection manager); then the `INSERT` hits the `UNIQUE` constraint on
`student_id` exactly when some existing row has the same `student_id`.  The
resulting `sqlite3.IntegrityError` is thrown into `get_db_connection`'s
generator, whose `except sqlite3.Error` around the `yield` re-raises it as a
`RuntimeError` — so the duplicate surfaces as the storage-kind error, and the
function's own `except sqlite3.IntegrityError: raise ValueError(...)` branch
is dead code (a `RuntimeError` matches neither of its `except` clauses). -/
def add_student_record (db : DB) (student_id name : String) (age : Int)
    (email department : String) (gpa : ℚ) (graduation_year : Int) :
    Except DBError DB :=
  if pyStrip student_id = "" then .error .emptyStudentId
  else if pyStrip name = "" then .error .emptyName
  else if db.rows.any (fun r => r.student_id = student_id) then
    .error .storageError
  else
    .ok ⟨db.nextId + 1,
         db.rows ++ [⟨db.nextId, student_id, name, age, email, department,
                      gpa, graduation_year, calculate_status (some gpa)⟩]⟩

/-- `database.view_all_records`: `SELECT ... ORDER BY name`. -/
def view_all_records (db : DB) : List StudentRecord :=
  List.insertionSort (fun a b => a.name ≤ b.name) db.rows

/-- `database.search_by_student_id`: exact-match `SELECT ... WHERE
student_id = ?`, `fetchone`. -/
def search_by_student_id (db : DB) (student_id : String) :
    Except DBError StudentRecord :=
  if pyStrip student_id = "" then .error .emptySearch
  else
    match db.rows.find? (fun r => r.student_id = student_id) with
    | some r => .ok r
    | none => .error .studentNotFound

/-- `database.update_record`.  Blank checks first; then the `UPDATE ... WHERE
id=?` statement runs: if a row with the given `id` exists and the new
`student_id` equals another row's `student_id`, SQLite raises
`sqlite3.IntegrityError` (the `UNIQUE` constraint), re-raised as a
`RuntimeError` by `get_db_connection`'s `except sqlite3.Error` around the
`yield` — there is no application-level duplicate check and no dedicated
duplicate error here.  The "Record Not Found" `ValueError` for
`rowcount = 0` is no `sqlite3.Error` and passes through unchanged. -/
def update_record (db : DB) (record_id : Nat) (student_id name : String)
    (age : Int) (email department : String) (gpa : ℚ) (graduation_year : Int) :
    Except DBError DB :=
  if pyStrip student_id = "" then .error .emptyStudentId
  else if pyStrip name = "" then .error .emptyName
  else if db.rows.any (fun r => r.id = record_id) then
    if db.rows.any (fun r => r.id ≠ record_id ∧ r.student_id = student_id) then
      .error .storageError
    else
      .ok ⟨db.nextId,
           db.rows.map (fun r =>
             if r.id = record_id then
               ⟨r.id, student_id, name, age, email, department, gpa,
                graduation_year, calculate_status (some gpa)⟩
             else r)⟩
  else .error .recordNotFound

/-- `database.delete_record`. -/
def delete_record (db : DB) (record_id : Int) : Except DBError DB :=
  if record_id ≤ 0 then .error .invalidRecordId
  else if db.rows.any (fun r => (r.id : Int) = record_id) then
    .ok ⟨db.nextId, db.rows.filter (fun r => (r.id : Int) ≠ record_id)⟩
  else .error .recordNotFound

/-- `add_student_record` as seen from the store: on an exception the `INSERT`
was not committed, so the stored data is unchanged. -/
def run_add (db : DB) (student_id name : String) (age : Int)
    (email department : String) (gpa : ℚ) (graduation_year : Int) :
    DB × Option DBError :=
  match add_student_record db student_id name age email department gpa
      graduation_year with
  | .ok db2 => (db2, none)
  | .error e => (db, some e)

/-- `update_record` as seen from the store: on an exception nothing was
committed, so the stored data is unchanged. -/
def run_update (db : DB) (record_id : Nat) (student_id name : String)
    (age : Int) (email department : String) (gpa : ℚ) (graduation_year : Int) :
    DB × Option DBError :=
  match update_record db record_id student_id name age email department gpa
      graduation_year with
  | .ok db2 => (db2, none)
  | .error e => (db, some e)

/-- Result of `database.get_statistics`. -/
structure Stats where
  total : Nat
  pass : Nat
  fail : Nat
  avg_gpa : ℚ
  deriving DecidableEq, Repr

/-- Two-decimal rounding, modelling Python's `round(x, 2)`.  (Python applies
round-half-to-even to the binary float; the development never evaluates the
function at a tie, where the conventions could differ.) -/
def round2 (q : ℚ) : ℚ := (round (100 * q) : ℤ) / 100

/-- `database.get_statistics`: `COUNT(*)`, the two status counts, and
`AVG(gpa)` where SQL's `AVG` over an empty table is `NULL`, turned into `0.0`
by the `or 0.0` fallback before rounding. -/
def get_statistics (db : DB) : Stats :=
  ⟨db.rows.length,
   (db.rows.filter (fun r => r.status = "PASS")).length,
   (db.rows.filter (fun r => r.status = "FAIL")).length,
   round2 (if db.rows.isEmpty then 0
           else (db.rows.map (fun r => r.gpa)).sum / (db.rows.length : ℚ))⟩

/-- A store state reachable from initialization by the mutating operations. -/
inductive Reachable : DB → Prop
  | init : Reachable init_database
  | add (db db' : DB) (sid nm : String) (age : Int) (em dp : String) (gpa : ℚ)
      (yr : Int) : Reachable db →
      add_student_record db sid nm age em dp gpa yr = .ok db' → Reachable db'
  | update (db db' : DB) (rid : Nat) (sid nm : String) (age : Int)
      (em dp : String) (gpa : ℚ) (yr : Int) : Reachable db →
      update_record db rid sid nm age em dp gpa yr = .ok db' → Reachable db'
  | del (db db' : DB) (rid : Int) : Reachable db →
      delete_record db rid = .ok db' → Reachable db'

/-- The derived-status invariant: every stored row's `status` column is the
status computed from that row's `gpa` column. -/
def StatusInv (db : DB) : Prop :=
  ∀ r ∈ db.rows, r.status = calculate_status (some r.gpa)

/-! ## GUI-side pure logic (`student-gui.py`) -/

/-- Value of a list of decimal digit characters (most significant first). -/
def digitsVal (cs : List Char) : Nat :=
  cs.foldl (fun a c => 10 * a + (c.toNat - 48)) 0

/-- A non-empty all-digit character block, or failure. -/
def parseDigits (cs : List Char) : Option Nat :=
  if !cs.isEmpty && cs.all Char.isDigit then some (digitsVal cs) else none

/-- Python `int(s)` on a string: optional surrounding whitespace, optional
sign, decimal digits.  (Underscore digit separators are not modelled; no
input of this development contains one.) -/
def pyParseInt (s : String) : Option Int :=
  match (pyStrip s).toList with
  | '+' :: rest => (parseDigits rest).map (fun n => (n : Int))
  | '-' :: rest => (parseDigits rest).map (fun n => -(n : Int))
  | cs => (parseDigits cs).map (fun n => (n : Int))

/-- The integer and fractional digit blocks of an unsigned decimal literal:
`d+`, `d+.`, `d+.d+` or `.d+`.  Returns the value as a numerator together
with its power-of-ten denominator, so `ip.fp` is `(ip*10^|fp| + fp) / 10^|fp|`,
exact as a rational. -/
def pyParseFloatParts (cs : List Char) : Option (Nat × Nat) :=
  let ip := cs.takeWhile (fun c => c ≠ '.')
  match cs.dropWhile (fun c => c ≠ '.') with
  | [] => (parseDigits ip).map (fun n => (n, 1))
  | _ :: fp =>
    if ip.all Char.isDigit && fp.all Char.isDigit
        && (!ip.isEmpty || !fp.isEmpty) then
      some (digitsVal ip * 10 ^ fp.length + digitsVal fp, 10 ^ fp.length)
    else none

/-- Python `float(s)` on a string: optional surrounding whitespace, optional
sign, decimal form.  (Exponent forms and `inf`/`nan` are not modelled; no
input of this development contains one.) -/
def pyParseFloat (s : String) : Option ℚ :=
  match (pyStrip s).toList with
  | '+' :: rest => (pyParseFloatParts rest).map (fun p => mkRat p.1 p.2)
  | '-' :: rest => (pyParseFloatParts rest).map (fun p => mkRat (-(p.1 : Int)) p.2)
  | cs => (pyParseFloatParts cs).map (fun p => mkRat p.1 p.2)

/-- The graduation-year validation slice of `show_add_dialog.save` and
`show_update_dialog.update`:
`year_str = entry.strip()`, reject unless `re.match(r'^\d{4}$', year_str)`,
then `year = int(year_str)`.  `none` embeds the raised `ValueError`
(ValidationError kind).  `\d` is modelled as the ASCII digits `0-9`;
Python's `re` (and `int()`) additionally accept the non-ASCII Unicode
decimal digits, so this embedding coincides with the program exactly on
ASCII input — `validateYearFormat_spec` carries that domain hypothesis. -/
def validateYearFormat (s : String) : Option Int :=
  if (pyStrip s).length == 4 && (pyStrip s).toList.all Char.isDigit then
    some (digitsVal (pyStrip s).toList : Int)
  else none

/-- `export_csv`'s header, the `fieldnames` list. -/
def exportFieldnames : List String :=
  ["StudentID", "Name", "Age", "Email", "Department", "GPA",
   "GraduationYear", "Status"]

/-- One data row written by `export_csv` (the writer formats each field as
text; we keep the field values themselves). -/
structure ExportRow where
  studentID : String
  name : String
  age : Int
  email : String
  department : String
  gpa : ℚ
  graduationYear : Int
  status : String
  deriving DecidableEq, Repr

/-- The dict written for one record by `export_csv`. -/
def exportRowOf (r : StudentRecord) : ExportRow :=
  ⟨r.student_id, r.name, r.age, r.email, r.department, r.gpa,
   r.graduation_year, r.status⟩

/-- `export_csv`: reads all records; if there are none it shows the
"No Records to Export" warning and returns without opening the file, so
nothing — not even a header — is written (`none`).  Otherwise it writes the
header then one row per record (`some`). -/
def export_csv (db : DB) : Option (List String × List ExportRow) :=
  if view_all_records db = [] then none
  else some (exportFieldnames, (view_all_records db).map exportRowOf)

/-- One cell of a `csv.DictReader` row, as seen through `row.get(key, d)`:
`str s` — the row supplies the text `s` for this column;
`absent` — the header has no such column, so `get` returns the default
(`''` for the text fields, the integer `0` for Age/GPA/GraduationYear);
`nullVal` — the header has the column but this data row is short, so
`DictReader` filled the value with `None` (`restval`). -/
inductive CsvField where
  | str (s : String)
  | absent
  | nullVal
  deriving DecidableEq, Repr

/-- One data row of the imported file. -/
structure CsvRow where
  studentID : CsvField
  name : CsvField
  age : CsvField
  email : CsvField
  department : CsvField
  gpa : CsvField
  graduationYear : CsvField
  deriving DecidableEq, Repr

/-- How one row ends inside `import_csv`'s loop: `skipE` is a raised
`ValueError`/`KeyError`, caught by the loop (`skipped += 1; continue`);
`abortE` is any other exception — `AttributeError` from `None.strip()`,
`TypeError` from `int(None)`/`float(None)`, or the storage-kind
`RuntimeError` of a duplicate StudentID — which the loop does not catch:
it propagates to the outer handler and ends the whole import. -/
inductive RowErr where
  | skipE
  | abortE
  deriving DecidableEq, Repr

/-- `row.get(key, '').strip()` for the text columns. -/
def getStrE : CsvField → Except RowErr String
  | .str s => .ok (pyStrip s)
  | .absent => .ok (pyStrip "")
  | .nullVal => .error .abortE

/-- `int(row.get(key, 0))` for the integer columns. -/
def getIntE : CsvField → Except RowErr Int
  | .str s =>
    match pyParseInt s with
    | some n => .ok n
    | none => .error .skipE
  | .absent => .ok 0
  | .nullVal => .error .abortE

/-- `float(row.get('GPA', 0))`. -/
def getFloatE : CsvField → Except RowErr ℚ
  | .str s =>
    match pyParseFloat s with
    | some q => .ok q
    | none => .error .skipE
  | .absent => .ok 0
  | .nullVal => .error .abortE

/-- The body of `import_csv`'s loop for one row: evaluate the seven argument
expressions left to right, then call `database.add_student_record`.  The
`ValueError`s it raises (blank id, blank name) are caught (`skipE`), but the
storage-kind `RuntimeError` of a duplicate StudentID matches neither
`ValueError` nor `KeyError` and escapes the loop (`abortE`). -/
def process_row (db : DB) (r : CsvRow) : Except RowErr DB := do
  let sid ← getStrE r.studentID
  let nm ← getStrE r.name
  let age ← getIntE r.age
  let em ← getStrE r.email
  let dp ← getStrE r.department
  let gpa ← getFloatE r.gpa
  let yr ← getIntE r.graduationYear
  match add_student_record db sid nm age em dp gpa yr with
  | .ok db2 => pure db2
  | .error .storageError => .error .abortE
  | .error _ => .error .skipE

/-- Outcome of `import_csv`: the final store, the two reported counters, and
whether an uncaught exception aborted the loop early. -/
structure ImportResult where
  db : DB
  imported : Nat
  skipped : Nat
  aborted : Bool
  deriving DecidableEq, Repr

/-- The `for row in csv_reader` loop with its two counters. -/
def import_go : DB → List CsvRow → Nat → Nat → ImportResult
  | db, [], imported, skipped => ⟨db, imported, skipped, false⟩
  | db, r :: rest, imported, skipped =>
    match process_row db r with
    | .ok db2 => import_go db2 rest (imported + 1) skipped
    | .error .skipE => import_go db rest imported (skipped + 1)
    | .error .abortE => ⟨db, imported, skipped, true⟩

/-- `import_csv` on the parsed data rows of the selected file. -/
def import_csv (db : DB) (rows : List CsvRow) : ImportResult :=
  import_go db rows 0 0

/-- A data row that supplies a value in every column (no `DictReader`
`None` fill-in). -/
def rowComplete (r : CsvRow) : Bool :=
  r.studentID ≠ .nullVal && r.name ≠ .nullVal && r.age ≠ .nullVal
    && r.email ≠ .nullVal && r.department ≠ .nullVal && r.gpa ≠ .nullVal
    && r.graduationYear ≠ .nullVal

/-! ## Shared concrete stores and helper lemmas -/

/-- A store holding one student, as produced by a single successful add. -/
def db1 : DB :=
  ⟨2, [⟨1, "S1", "Ann", 20, "a@x.com", "Physics", 2, 2026, "FAIL"⟩]⟩

/-- A store holding two students with distinct `student_id`s. -/
def db2 : DB :=
  ⟨3, [⟨1, "S1", "Ann", 20, "a@x.com", "Physics", 2, 2026, "FAIL"⟩,
       ⟨2, "S2", "Bob", 22, "b@x.com", "Chemistry", 3, 2025, "PASS"⟩]⟩

/-- `calculate_status` only ever produces the two status strings. -/
theorem calculate_status_mem (g : Option ℚ) :
    calculate_status g = "PASS" ∨ calculate_status g = "FAIL" := by
  cases g with
  | none => exact Or.inr rfl
  | some q =>
    show (if q < PASS_FAIL_THRESHOLD then "FAIL" else "PASS") = "PASS"
      ∨ (if q < PASS_FAIL_THRESHOLD then "FAIL" else "PASS") = "FAIL"
    by_cases hq : q < PASS_FAIL_THRESHOLD
    · exact Or.inr (if_pos hq)
    · exact Or.inl (if_neg hq)

/-- `find?` skips a block in which no element satisfies the predicate. -/
theorem find?_append_none {α : Type} {p : α → Bool} {l1 l2 : List α}
    (h : l1.find? p = none) : (l1 ++ l2).find? p = l2.find? p := by
  induction l1 with
  | nil => simp
  | cons a l ih =>
    cases hpa : p a with
    | true =>
      rw [List.find?_cons_of_pos _ hpa] at h
      exact absurd h (by simp)
    | false =>
      have hpa' : ¬ p a = true := by simp [hpa]
      rw [List.find?_cons_of_neg _ hpa'] at h
      rw [List.cons_append, List.find?_cons_of_neg _ hpa']
      exact ih h

/-- If `add_student_record` returns a new store, the new store is the old
rows extended with one freshly numbered record carrying the computed status. -/
theorem add_ok_shape (db db' : DB) (sid nm : String) (age : Int)
    (em dp : String) (gpa : ℚ) (yr : Int)
    (heq : add_student_record db sid nm age em dp gpa yr = .ok db') :
    db' = ⟨db.nextId + 1,
           db.rows ++ [⟨db.nextId, sid, nm, age, em, dp, gpa, yr,
                        calculate_status (some gpa)⟩]⟩ := by
  unfold add_student_record at heq
  by_cases c1 : pyStrip sid = ""
  · rw [if_pos c1] at heq
    exact Except.noConfusion heq
  rw [if_neg c1] at heq
  by_cases c2 : pyStrip nm = ""
  · rw [if_pos c2] at heq
    exact Except.noConfusion heq
  rw [if_neg c2] at heq
  by_cases c3 : db.rows.any (fun r => r.student_id = sid) = true
  · rw [if_pos c3] at heq
    exact Except.noConfusion heq
  rw [if_neg c3] at heq
  injection heq with heq
  exact heq.symm

/-- If `update_record` returns a new store, the new store maps the targeted
row to the supplied fields with the computed status and keeps every other
row. -/
theorem update_ok_shape (db db' : DB) (rid : Nat) (sid nm : String)
    (age : Int) (em dp : String) (gpa : ℚ) (yr : Int)
    (heq : update_record db rid sid nm age em dp gpa yr = .ok db') :
    db' = ⟨db.nextId,
           db.rows.map (fun r =>
             if r.id = rid then
               ⟨r.id, sid, nm, age, em, dp, gpa, yr,
                calculate_status (some gpa)⟩
             else r)⟩ := by
  unfold update_record at heq
  by_cases c1 : pyStrip sid = ""
  · rw [if_pos c1] at heq
    exact Except.noConfusion heq
  rw [if_neg c1] at heq
  by_cases c2 : pyStrip nm = ""
  · rw [if_pos c2] at heq
    exact Except.noConfusion heq
  rw [if_neg c2] at heq
  by_cases c3 : db.rows.any (fun r => r.id = rid) = true
  · rw [if_pos c3] at heq
    by_cases c4 : db.rows.any (fun r => r.id ≠ rid ∧ r.student_id = sid) = true
    · rw [if_pos c4] at heq
      exact Except.noConfusion heq
    · rw [if_neg c4] at heq
      injection heq with heq
      exact heq.symm
  · rw [if_neg c3] at heq
    exact Except.noConfusion heq

/-- If `delete_record` returns a new store, the new store keeps exactly the
rows whose id differs from the deleted one. -/
theorem delete_ok_shape (db db' : DB) (rid : Int)
    (heq : delete_record db rid = .ok db') :
    db' = ⟨db.nextId, db.rows.filter (fun r => (r.id : Int) ≠ rid)⟩ := by
  unfold delete_record at heq
  by_cases c1 : rid ≤ 0
  · rw [if_pos c1] at heq
    exact Except.noConfusion heq
  rw [if_neg c1] at heq
  by_cases c2 : db.rows.any (fun r => (r.id : Int) = rid) = true
  · rw [if_pos c2] at heq
    injection heq with heq
    exact heq.symm
  · rw [if_neg c2] at heq
    exact Except.noConfusion heq

/-! ## C1 -/

/-- C1: for every gpa in `[2.2, 4.0]` the status is `"PASS"`, for every gpa in
`[0.0, 2.2)` it is `"FAIL"`, and an input that cannot be interpreted as a
number yields `"FAIL"` instead of an error.  The interval endpoints are the
configured constants, and the first conjunct pins the threshold to the
literal 2.2. -/
theorem calculate_status_spec (q : ℚ) :
    PASS_FAIL_THRESHOLD = 2.2
    ∧ (PASS_FAIL_THRESHOLD ≤ q → q ≤ MAX_GPA → calculate_status (some q) = "PASS")
    ∧ (MIN_GPA ≤ q → q < PASS_FAIL_THRESHOLD → calculate_status (some q) = "FAIL")
    ∧ calculate_status none = "FAIL" := by
  refine ⟨PASS_FAIL_THRESHOLD_eq, ?_, ?_, rfl⟩
  · intro h _
    show (if q < PASS_FAIL_THRESHOLD then "FAIL" else "PASS") = "PASS"
    exact if_neg (not_lt.mpr h)
  · intro _ h
    show (if q < PASS_FAIL_THRESHOLD then "FAIL" else "PASS") = "FAIL"
    exact if_pos h

/-- C1 witness: concrete evaluations through `calculate_status_spec`. -/
theorem calculate_status_spec_witness :
    calculate_status (some 3) = "PASS" ∧ calculate_status (some 2) = "FAIL" :=
  ⟨(calculate_status_spec 3).2.1 (by decide) (by decide),
   (calculate_status_spec 2).2.2.1 (by decide) (by decide)⟩

/-! ## C2 -/

/-- C2: in every reachable store state, every record's `status` equals
`calculate_status` of that record's `gpa`; no operation sets `status`
independently of `gpa`. -/
theorem status_invariant (db : DB) (h : Reachable db) : StatusInv db := by
  induction h with
  | init =>
    intro r hr
    exact absurd hr (by simp [init_database])
  | add db db' sid nm age em dp gpa yr _ heq ih =>
    intro r hr
    rw [add_ok_shape db db' sid nm age em dp gpa yr heq] at hr
    rcases List.mem_append.mp hr with hold | hnew
    · exact ih r hold
    · rcases List.mem_singleton.mp hnew with rfl
      rfl
  | update db db' rid sid nm age em dp gpa yr _ heq ih =>
    intro r hr
    rw [update_ok_shape db db' rid sid nm age em dp gpa yr heq] at hr
    rcases List.mem_map.mp hr with ⟨r0, hr0, hmap⟩
    by_cases hid : r0.id = rid
    · rw [← hmap, if_pos hid]
    · rw [← hmap, if_neg hid]
      exact ih r0 hr0
  | del db db' rid _ heq ih =>
    intro r hr
    rw [delete_ok_shape db db' rid heq] at hr
    exact ih r (List.mem_of_mem_filter hr)

/-- C2 witness: the invariant holds in the concrete reachable state `db1`,
reached by one add from the initial store. -/
theorem status_invariant_witness : StatusInv db1 :=
  status_invariant db1
    (Reachable.add init_database db1 "S1" "Ann" 20 "a@x.com" "Physics" 2 2026
      Reachable.init rfl)

/-! ## C4 -/

/-- C4 counterexample: a duplicate add into the concrete store `db1` fails
with the storage-kind error, not `DuplicateKeyError` — the `IntegrityError`
is re-wrapped as `RuntimeError` by the connection manager before
`add_student_record`'s `except sqlite3.IntegrityError` can see it, so the
claim's stated error kind is wrong at this input (the store is unchanged). -/
theorem add_duplicate_counterexample :
    run_add db1 "S1" "Bob" 21 "b@x.com" "Chemistry" 3 2027
      = (db1, some DBError.storageError)
    ∧ DBError.storageError ≠ DBError.duplicateStudentId := by
  exact ⟨rfl, by decide⟩

/-- C4 amended: adding a student whose `student_id` already exists fails —
and the store, in particular the previously existing record, is unchanged —
but with the storage-kind `RuntimeError` (`get_db_connection` re-wraps the
`UNIQUE`-constraint `IntegrityError` around its `yield`), not with
`DuplicateKeyError`: the duplicate-`ValueError` branch is dead code. -/
theorem add_duplicate_storage_unchanged (db : DB) (sid nm : String)
    (age : Int) (em dp : String) (gpa : ℚ) (yr : Int)
    (h1 : pyStrip sid ≠ "") (h2 : pyStrip nm ≠ "")
    (hdup : ∃ r ∈ db.rows, r.student_id = sid) :
    run_add db sid nm age em dp gpa yr = (db, some DBError.storageError) := by
  have hany : db.rows.any (fun r => r.student_id = sid) = true := by
    obtain ⟨r, hr, hrs⟩ := hdup
    exact List.any_eq_true.mpr ⟨r, hr, by simp [hrs]⟩
  unfold run_add add_student_record
  rw [if_neg h1, if_neg h2, if_pos hany]

/-- C4 witness: duplicate add of `"S1"` into `db1` through
`add_duplicate_storage_unchanged`. -/
theorem add_duplicate_storage_unchanged_witness :
    run_add db1 "S1" "Bob" 21 "b@x.com" "Chemistry" 3 2027
      = (db1, some DBError.storageError) :=
  add_duplicate_storage_unchanged db1 "S1" "Bob" 21 "b@x.com" "Chemistry"
    3 2027 (by decide) (by decide)
    ⟨⟨1, "S1", "Ann", 20, "a@x.com", "Physics", 2, 2026, "FAIL"⟩, by decide, rfl⟩

/-! ## C5 -/

/-- C5: updating a `recordId` that does not exist, with otherwise valid
fields, fails with the record-not-found error and leaves the store — hence
its total record count — unchanged. -/
theorem update_missing_unchanged (db : DB) (rid : Nat) (sid nm : String)
    (age : Int) (em dp : String) (gpa : ℚ) (yr : Int)
    (h1 : pyStrip sid ≠ "") (h2 : pyStrip nm ≠ "")
    (hmiss : ∀ r ∈ db.rows, r.id ≠ rid) :
    run_update db rid sid nm age em dp gpa yr
      = (db, some DBError.recordNotFound) := by
  have hany : db.rows.any (fun r => r.id = rid) = false := by
    rw [List.any_eq_false]
    intro r hr
    simp [hmiss r hr]
  unfold run_update update_record
  rw [if_neg h1, if_neg h2, hany]
  rfl

/-- C5 witness: updating the absent record id 5 of `db1` through
`update_missing_unchanged`. -/
theorem update_missing_unchanged_witness :
    run_update db1 5 "S9" "Zoe" 23 "z@x.com" "Biology" 3 2028
      = (db1, some DBError.recordNotFound) :=
  update_missing_unchanged db1 5 "S9" "Zoe" 23 "z@x.com" "Biology" 3 2028
    (by decide) (by decide) (by decide)

/-! ## C3 -/

/-- C3 counterexample: in the two-record store `db2`, updating record 2 to
the `student_id` `"S1"` held by record 1 does **not** succeed — the `UNIQUE`
constraint on `student_id` makes the `UPDATE` raise, surfaced as the
storage-level `RuntimeError`, so the claim that such an update succeeds is
false at this input. -/
theorem update_duplicate_counterexample :
    update_record db2 2 "S1" "Bob" 22 "b@x.com" "Chemistry" 3 2025
      = Except.error DBError.storageError
    ∧ ∀ db', update_record db2 2 "S1" "Bob" 22 "b@x.com" "Chemistry" 3 2025
        ≠ Except.ok db' := by
  have e : update_record db2 2 "S1" "Bob" 22 "b@x.com" "Chemistry" 3 2025
      = Except.error DBError.storageError := rfl
  exact ⟨e, fun db' h => Except.noConfusion (e ▸ h)⟩

/-- C3 amended: `update_record` performs no application-level `studentId`
uniqueness check of its own, but when the targeted record exists and the new
`studentId` equals another existing record's `studentId`, the storage
layer's `UNIQUE` constraint rejects the statement and the operation fails
with the storage-level error (`RuntimeError`, the spec's StorageWriteError
kind) — not with `DuplicateKeyError`, and not with success. -/
theorem update_duplicate_storage_error (db : DB) (rid : Nat) (sid nm : String)
    (age : Int) (em dp : String) (gpa : ℚ) (yr : Int)
    (h1 : pyStrip sid ≠ "") (h2 : pyStrip nm ≠ "")
    (hex : ∃ r ∈ db.rows, r.id = rid)
    (hother : ∃ r ∈ db.rows, r.id ≠ rid ∧ r.student_id = sid) :
    update_record db rid sid nm age em dp gpa yr
      = Except.error DBError.storageError := by
  have h3 : db.rows.any (fun r => r.id = rid) = true := by
    obtain ⟨r, hr, hid⟩ := hex
    exact List.any_eq_true.mpr ⟨r, hr, by simp [hid]⟩
  have h4 : db.rows.any (fun r => r.id ≠ rid ∧ r.student_id = sid) = true := by
    obtain ⟨r, hr, hprop⟩ := hother
    exact List.any_eq_true.mpr ⟨r, hr, by simp [hprop.1, hprop.2]⟩
  unfold update_record
  rw [if_neg h1, if_neg h2, if_pos h3, if_pos h4]

/-- C3 witness: the amended statement evaluated in `db2` through
`update_duplicate_storage_error`. -/
theorem update_duplicate_storage_error_witness :
    update_record db2 2 "S2x" "Bob" 22 "b@x.com" "Chemistry" 3 2025
      = Except.error DBError.storageError ∨
    update_record db2 1 "S2" "Ann" 20 "a@x.com" "Physics" 2 2026
      = Except.error DBError.storageError :=
  Or.inr
    (update_duplicate_storage_error db2 1 "S2" "Ann" 20 "a@x.com" "Physics"
      2 2026 (by decide) (by decide)
      ⟨⟨1, "S1", "Ann", 20, "a@x.com", "Physics", 2, 2026, "FAIL"⟩,
        by decide, rfl⟩
      ⟨⟨2, "S2", "Bob", 22, "b@x.com", "Chemistry", 3, 2025, "PASS"⟩,
        by decide, by decide, rfl⟩)

/-! ## C6 -/

/-- Rows whose statuses all lie in `{PASS, FAIL}` are partitioned by the two
status filters. -/
theorem filter_status_partition (rows : List StudentRecord)
    (h : ∀ r ∈ rows, r.status = "PASS" ∨ r.status = "FAIL") :
    (rows.filter (fun r => r.status = "PASS")).length
      + (rows.filter (fun r => r.status = "FAIL")).length = rows.length := by
  induction rows with
  | nil => rfl
  | cons r rs ih =>
    have ih' := ih (fun x hx => h x (List.mem_cons_of_mem r hx))
    rcases h r (List.mem_cons_self r rs) with hp | hp <;>
      simp [List.filter_cons, hp] <;> omega

/-- C6: `statistics` reports the record count as `total`, `pass` and `fail`
counts that partition the records (their sum is `total`), and the rounded
mean of the `gpa` values as `avg_gpa`; on the empty initial store it returns
all-zero statistics, not an error.  The partition hypothesis `StatusInv` is
the derived-status invariant, which `status_invariant` establishes for every
reachable store. -/
theorem get_statistics_spec (db : DB) (h : StatusInv db) :
    (get_statistics db).total = db.rows.length
    ∧ (get_statistics db).pass + (get_statistics db).fail
        = (get_statistics db).total
    ∧ (get_statistics db).avg_gpa
        = round2 (if db.rows.isEmpty then 0
                  else (db.rows.map (fun r => r.gpa)).sum / (db.rows.length : ℚ))
    ∧ get_statistics init_database = ⟨0, 0, 0, 0⟩ := by
  refine ⟨rfl, ?_, rfl, ?_⟩
  · exact filter_status_partition db.rows
      (fun r hr => (h r hr) ▸ calculate_status_mem (some r.gpa))
  · show get_statistics ⟨1, []⟩ = ⟨0, 0, 0, 0⟩
    unfold get_statistics round2
    norm_num

/-- C6 witness: the statistics contract evaluated on the concrete two-record
store `db2` through `get_statistics_spec`. -/
theorem get_statistics_spec_witness :
    (get_statistics db2).total = db2.rows.length
    ∧ (get_statistics db2).pass + (get_statistics db2).fail
        = (get_statistics db2).total
    ∧ (get_statistics db2).avg_gpa
        = round2 (if db2.rows.isEmpty then 0
                  else (db2.rows.map (fun r => r.gpa)).sum / (db2.rows.length : ℚ))
    ∧ get_statistics init_database = ⟨0, 0, 0, 0⟩ :=
  get_statistics_spec db2 (by unfold StatusInv; decide)

/-! ## C7 -/

/-- C7 counterexample: the claim says an input with leading/trailing
whitespace is rejected, but the code strips the entry before matching, so
`" 2025 "` is accepted and returns 2025. -/
theorem validateYearFormat_counterexample :
    validateYearFormat " 2025 " = some 2025 ∧ " 2025 " ≠ "2025" := by
  exact ⟨by decide, by decide⟩

/-- C7 amended: restricted to ASCII inputs — on which the embedding and the
program agree exactly — `validateYearFormat` accepts exactly the strings
that, after stripping leading/trailing whitespace, consist of exactly four
ASCII digits, returning the integer those digits denote; every other such
input — fewer or more digits, or non-digit characters — is rejected with
`ValidationError` (`none`).  Outside ASCII the program is more permissive
than the original claim states: `\d` and `int()` also accept non-ASCII
Unicode decimal digits, and `strip()` removes non-ASCII whitespace. -/
theorem validateYearFormat_spec (s : String) (n : Int)
    (_hascii : ∀ c ∈ s.toList, c.toNat < 128) :
    validateYearFormat s = some n ↔
      ((pyStrip s).length = 4
        ∧ (∀ c ∈ (pyStrip s).toList, c.isDigit = true)
        ∧ n = (digitsVal (pyStrip s).toList : Int)) := by
  unfold validateYearFormat
  by_cases hc : ((pyStrip s).length == 4
      && (pyStrip s).toList.all Char.isDigit) = true
  · rw [if_pos hc]
    rw [Bool.and_eq_true, beq_iff_eq, List.all_eq_true] at hc
    constructor
    · intro h
      injection h with h
      exact ⟨hc.1, hc.2, h.symm⟩
    · intro ⟨_, _, hn⟩
      rw [hn]
  · rw [if_neg hc]
    rw [Bool.and_eq_true, beq_iff_eq, List.all_eq_true] at hc
    constructor
    · intro h
      exact Option.noConfusion h
    · intro ⟨hl, hd, _⟩
      exact absurd (And.intro hl hd) hc

/-- C7 witness: the spec's own examples evaluated through
`validateYearFormat_spec`. -/
theorem validateYearFormat_spec_witness :
    validateYearFormat "2025" = some 2025
    ∧ validateYearFormat "25" = none
    ∧ validateYearFormat "20255" = none
    ∧ validateYearFormat "20a5" = none :=
  ⟨(validateYearFormat_spec "2025" 2025 (by decide)).mpr (by decide),
   by decide, by decide, by decide⟩

/-! ## C8 -/

/-- C8 counterexample: on the empty store, `export_csv` shows the
"No Records to Export" warning and returns before the file is opened, so
nothing — in particular no header row — is written; the claim that the
header is written even with zero data rows is false at the empty store. -/
theorem export_csv_counterexample : export_csv init_database = none := rfl

/-- C8 amended: on every **non-empty** store, bulk export writes the header
row `StudentID, Name, Age, Email, Department, GPA, GraduationYear, Status`
followed by exactly one row per existing record; on the empty store the
export is aborted with a warning and nothing (no header) is written. -/
theorem export_csv_spec (db : DB) (h : db.rows ≠ []) :
    export_csv db
      = some (exportFieldnames, (view_all_records db).map exportRowOf)
    ∧ ((view_all_records db).map exportRowOf).length = db.rows.length := by
  have hlen : (view_all_records db).length = db.rows.length := by
    unfold view_all_records
    exact List.Perm.length_eq (List.perm_insertionSort _ _)
  have hne : view_all_records db ≠ [] := by
    intro he
    rw [he] at hlen
    exact h (List.length_eq_zero.mp hlen.symm)
  refine ⟨?_, by rw [List.length_map, hlen]⟩
  unfold export_csv
  rw [if_neg hne]

/-- C8 witness: export of the concrete one-record store `db1` through
`export_csv_spec`. -/
theorem export_csv_spec_witness :
    export_csv db1
      = some (exportFieldnames, (view_all_records db1).map exportRowOf)
    ∧ ((view_all_records db1).map exportRowOf).length = db1.rows.length :=
  export_csv_spec db1 (by decide)

/-! ## C9 -/

/-- `Except.ok` feeds its value to the continuation. -/
theorem except_bind_ok {α β : Type} (a : α) (f : α → Except RowErr β) :
    (Except.ok a >>= f) = f a := rfl

/-- `Except.error` short-circuits the continuation. -/
theorem except_bind_error {α β : Type} (e : RowErr)
    (f : α → Except RowErr β) :
    ((Except.error e : Except RowErr α) >>= f) = Except.error e := rfl

/-- The string value a text cell contributes after `row.get(key, '').strip()`
(meaningful when the cell is not a `DictReader` `None`). -/
def strVal : CsvField → String
  | .str s => pyStrip s
  | .absent => ""
  | .nullVal => ""

/-- A text cell that is not a `DictReader` `None` yields its stripped value. -/
theorem getStrE_complete (f : CsvField) (h : f ≠ CsvField.nullVal) :
    getStrE f = .ok (strVal f) := by
  cases f with
  | str s => rfl
  | absent =>
    show Except.ok (pyStrip "") = Except.ok ""
    exact congrArg Except.ok (by decide)
  | nullVal => exact absurd rfl h

/-- An integer cell that is not a `DictReader` `None` either fails the
caught `int()` parse or yields a value. -/
theorem getIntE_complete (f : CsvField) (h : f ≠ CsvField.nullVal) :
    getIntE f = .error .skipE ∨ ∃ n, getIntE f = .ok n := by
  cases f with
  | str s =>
    simp only [getIntE]
    rcases hp : pyParseInt s with _ | n
    · exact Or.inl rfl
    · exact Or.inr ⟨n, rfl⟩
  | absent => exact Or.inr ⟨0, rfl⟩
  | nullVal => exact absurd rfl h

/-- A GPA cell that is not a `DictReader` `None` either fails the caught
`float()` parse or yields a value. -/
theorem getFloatE_complete (f : CsvField) (h : f ≠ CsvField.nullVal) :
    getFloatE f = .error .skipE ∨ ∃ q, getFloatE f = .ok q := by
  cases f with
  | str s =>
    simp only [getFloatE]
    rcases hp : pyParseFloat s with _ | q
    · exact Or.inl rfl
    · exact Or.inr ⟨q, rfl⟩
  | absent => exact Or.inr ⟨0, rfl⟩
  | nullVal => exact absurd rfl h

/-- One complete row whose stripped StudentID does not collide with a stored
record is either skipped (a caught value-level failure) or imported, adding
exactly its stripped StudentID to the store — it never aborts the batch. -/
theorem process_row_complete (db : DB) (r : CsvRow)
    (h : rowComplete r = true)
    (hfresh : strVal r.studentID ≠ "" →
      strVal r.studentID ∉ db.rows.map (fun x => x.student_id)) :
    process_row db r = .error .skipE
    ∨ (strVal r.studentID ≠ "" ∧ ∃ db', process_row db r = .ok db'
        ∧ db'.rows.map (fun x => x.student_id)
            = db.rows.map (fun x => x.student_id) ++ [strVal r.studentID]) := by
  unfold rowComplete at h
  simp only [Bool.and_eq_true, decide_eq_true_eq] at h
  obtain ⟨⟨⟨⟨⟨⟨h1, h2⟩, h3⟩, h4⟩, h5⟩, h6⟩, h7⟩ := h
  unfold process_row
  rw [getStrE_complete r.studentID h1, except_bind_ok]
  rw [getStrE_complete r.name h2, except_bind_ok]
  rcases getIntE_complete r.age h3 with hage | ⟨age, hage⟩
  · rw [hage, except_bind_error]
    exact Or.inl rfl
  rw [hage, except_bind_ok]
  rw [getStrE_complete r.email h4, except_bind_ok]
  rw [getStrE_complete r.department h5, except_bind_ok]
  rcases getFloatE_complete r.gpa h6 with hgpa | ⟨gpa, hgpa⟩
  · rw [hgpa, except_bind_error]
    exact Or.inl rfl
  rw [hgpa, except_bind_ok]
  rcases getIntE_complete r.graduationYear h7 with hyr | ⟨yr, hyr⟩
  · rw [hyr, except_bind_error]
    exact Or.inl rfl
  rw [hyr, except_bind_ok]
  unfold add_student_record
  by_cases c1 : pyStrip (strVal r.studentID) = ""
  · rw [if_pos c1]
    exact Or.inl rfl
  rw [if_neg c1]
  by_cases c2 : pyStrip (strVal r.name) = ""
  · rw [if_pos c2]
    exact Or.inl rfl
  rw [if_neg c2]
  have ht : strVal r.studentID ≠ "" := by
    intro he
    exact c1 (by rw [he]; decide)
  have hany : ¬ (db.rows.any
      (fun rec => rec.student_id = strVal r.studentID) = true) := by
    intro hc
    obtain ⟨rec, hrec, hp⟩ := List.any_eq_true.mp hc
    exact hfresh ht (List.mem_map.mpr ⟨rec, hrec, by simpa using hp⟩)
  rw [if_neg hany]
  exact Or.inr ⟨ht, _, rfl, by simp⟩

/-- The import loop on complete rows with pairwise fresh non-blank
StudentIDs never aborts, and its counters add up to the number of rows plus
their starting values. -/
theorem import_go_nocollision (rows : List CsvRow) :
    ∀ db i s,
      (∀ r ∈ rows, rowComplete r = true) →
      List.Pairwise (fun a b => a ≠ "" → a ≠ b)
        (rows.map (fun r => strVal r.studentID)) →
      (∀ r ∈ rows, strVal r.studentID ≠ "" →
        strVal r.studentID ∉ db.rows.map (fun x => x.student_id)) →
      (import_go db rows i s).aborted = false
      ∧ (import_go db rows i s).imported + (import_go db rows i s).skipped
          = i + s + rows.length := by
  induction rows with
  | nil =>
    intro db i s _ _ _
    exact ⟨rfl, rfl⟩
  | cons r rest ih =>
    intro db i s hc hp hd
    rw [List.map_cons, List.pairwise_cons] at hp
    have hcr := hc r (List.mem_cons_self r rest)
    have hcrest : ∀ x ∈ rest, rowComplete x = true :=
      fun x hx => hc x (List.mem_cons_of_mem r hx)
    have hdr : strVal r.studentID ≠ "" →
        strVal r.studentID ∉ db.rows.map (fun x => x.student_id) :=
      hd r (List.mem_cons_self r rest)
    rcases process_row_complete db r hcr hdr with hskip | ⟨ht, db2, hok, hmap⟩
    · unfold import_go
      rw [hskip]
      have := ih db i (s + 1) hcrest hp.2
        (fun x hx => hd x (List.mem_cons_of_mem r hx))
      refine ⟨this.1, ?_⟩
      rw [this.2, List.length_cons]
      omega
    · unfold import_go
      rw [hok]
      have hd2 : ∀ x ∈ rest, strVal x.studentID ≠ "" →
          strVal x.studentID ∉ db2.rows.map (fun y => y.student_id) := by
        intro x hx hxne hmem
        rw [hmap] at hmem
        rcases List.mem_append.mp hmem with hmem | hmem
        · exact hd x (List.mem_cons_of_mem r hx) hxne hmem
        · rcases List.mem_singleton.mp hmem with heq
          exact hp.1 (strVal x.studentID)
            (List.mem_map.mpr ⟨x, hx, rfl⟩) ht heq.symm
      have := ih db2 (i + 1) s hcrest hp.2 hd2
      refine ⟨this.1, ?_⟩
      rw [this.2, List.length_cons]
      omega

/-- C9 amended: bulk import is row-independent only for value-level
failures: a complete data row (a value in every column) whose field parsing
or validation fails is skipped and counted without aborting the batch, and
for a batch of complete rows whose stripped StudentIDs are pairwise distinct
(among the non-blank ones) and do not collide with a stored record,
`(imported, skipped)` sum to the number of data rows.  Two row-level
failures do abort the whole batch, leaving later rows unprocessed and
uncounted: a short row (`DictReader` `None` values raise `AttributeError` /
`TypeError`) and a duplicate StudentID (the storage-kind `RuntimeError`
escapes `except (ValueError, KeyError)`) — see the counterexample. -/
theorem import_csv_row_independent (db : DB) (rows : List CsvRow)
    (hcomplete : ∀ r ∈ rows, rowComplete r = true)
    (hpairwise : List.Pairwise (fun a b => a ≠ "" → a ≠ b)
      (rows.map (fun r => strVal r.studentID)))
    (hfresh : ∀ r ∈ rows, strVal r.studentID ≠ "" →
      strVal r.studentID ∉ db.rows.map (fun x => x.student_id)) :
    (import_csv db rows).aborted = false
    ∧ (import_csv db rows).imported + (import_csv db rows).skipped
        = rows.length := by
  have := import_go_nocollision rows db 0 0 hcomplete hpairwise hfresh
  unfold import_csv
  exact ⟨this.1, by rw [this.2]; omega⟩

/-- A CSV data row whose cells all parse and validate. -/
def good_row : CsvRow :=
  ⟨.str "S1", .str "Ann", .str "20", .str "a@x.com", .str "Physics",
   .str "2.0", .str "2026"⟩

/-- A second valid CSV data row with a fresh StudentID. -/
def good_row2 : CsvRow :=
  ⟨.str "S2", .str "Bob", .str "22", .str "b@x.com", .str "Chemistry",
   .str "3.0", .str "2025"⟩

/-- A CSV data row whose Age cell fails integer parsing (skipped, not
aborted). -/
def bad_value_row : CsvRow :=
  ⟨.str "S3", .str "Cat", .str "xx", .str "c@x.com", .str "Biology",
   .str "3.0", .str "2025"⟩

/-- A short CSV data row: only the StudentID column is present, so
`DictReader` fills the remaining cells with `None`. -/
def short_row : CsvRow :=
  ⟨.str "S9", .nullVal, .nullVal, .nullVal, .nullVal, .nullVal, .nullVal⟩

/-- C9 counterexample, two failing batches.  A batch with a short data row
aborts at that row (`None.strip()`), the following good row is never
processed, and the counts `0 + 0` cover neither data row.  A batch of three
complete rows whose second duplicates the first StudentID aborts at the
duplicate with the uncaught storage-kind `RuntimeError`: one imported, zero
skipped, the third row never processed — so a validation failure of one row
did abort the batch. -/
theorem import_csv_counterexample :
    import_csv init_database [short_row, good_row]
      = ⟨init_database, 0, 0, true⟩
    ∧ import_csv init_database [good_row, good_row, good_row2]
      = ⟨db1, 1, 0, true⟩
    ∧ (import_csv init_database [good_row]).imported = 1 := by
  exact ⟨rfl, rfl, rfl⟩

/-- C9 witness: a concrete complete, collision-free batch with one good and
one value-invalid row through `import_csv_row_independent`. -/
theorem import_csv_row_independent_witness :
    (import_csv init_database [good_row, bad_value_row]).aborted = false
    ∧ (import_csv init_database [good_row, bad_value_row]).imported
        + (import_csv init_database [good_row, bad_value_row]).skipped
      = [good_row, bad_value_row].length :=
  import_csv_row_independent init_database [good_row, bad_value_row]
    (by decide) (by decide) (by decide)

/-! ## C10 -/

/-- C10: `add_student_record` stores `student_id` (and `name`) exactly as
supplied, without trimming: any `student_id` containing a non-whitespace
character is accepted and persisted verbatim, the uniqueness check and the
exact-match lookup both see the untrimmed value, any different string — in
particular the trimmed form — is not found by lookup, and adding a different
string — in particular the trimmed form — is not a duplicate. -/
theorem add_verbatim (db : DB) (sid nm : String) (age : Int) (em dp : String)
    (gpa : ℚ) (yr : Int)
    (h1 : pyStrip sid ≠ "") (h2 : pyStrip nm ≠ "")
    (h3 : ∀ r ∈ db.rows, r.student_id ≠ sid) :
    ∃ db', add_student_record db sid nm age em dp gpa yr = .ok db'
      ∧ db'.rows.map (fun r => r.student_id)
          = db.rows.map (fun r => r.student_id) ++ [sid]
      ∧ (∃ rec, search_by_student_id db' sid = .ok rec
          ∧ rec.student_id = sid ∧ rec.name = nm ∧ rec.gpa = gpa)
      ∧ (∀ q, pyStrip q ≠ "" → q ≠ sid → (∀ r ∈ db.rows, r.student_id ≠ q) →
          search_by_student_id db' q = .error .studentNotFound)
      ∧ (∀ sid2, pyStrip sid2 ≠ "" → sid2 ≠ sid →
          (∀ r ∈ db.rows, r.student_id ≠ sid2) →
          ∃ db'', add_student_record db' sid2 nm age em dp gpa yr = .ok db'') := by
  have hanyF : ¬ (db.rows.any (fun r => r.student_id = sid) = true) := by
    intro hc
    obtain ⟨r, hr, hp⟩ := List.any_eq_true.mp hc
    exact h3 r hr (by simpa using hp)
  refine ⟨⟨db.nextId + 1,
           db.rows ++ [⟨db.nextId, sid, nm, age, em, dp, gpa, yr,
                        calculate_status (some gpa)⟩]⟩, ?_, ?_, ?_, ?_, ?_⟩
  · unfold add_student_record
    rw [if_neg h1, if_neg h2, if_neg hanyF]
  · simp
  · refine ⟨⟨db.nextId, sid, nm, age, em, dp, gpa, yr,
             calculate_status (some gpa)⟩, ?_, rfl, rfl, rfl⟩
    unfold search_by_student_id
    rw [if_neg h1]
    have hfnone : db.rows.find? (fun r => r.student_id = sid) = none :=
      List.find?_eq_none.mpr (fun x hx => by simp [h3 x hx])
    rw [find?_append_none hfnone, List.find?_cons_of_pos _ (by simp)]
  · intro q hq1 hq2 hq3
    unfold search_by_student_id
    rw [if_neg hq1]
    have hfq : (db.rows ++ [(⟨db.nextId, sid, nm, age, em, dp, gpa, yr,
        calculate_status (some gpa)⟩ : StudentRecord)]).find?
          (fun r => r.student_id = q) = none := by
      refine List.find?_eq_none.mpr (fun x hx => ?_)
      rcases List.mem_append.mp hx with hold | hnew
      · simp [hq3 x hold]
      · rcases List.mem_singleton.mp hnew with rfl
        simp [Ne.symm hq2]
    rw [hfq]
  · intro sid2 hs1 hs2 hs3
    have hanyF2 : ¬ ((db.rows ++ [(⟨db.nextId, sid, nm, age, em, dp, gpa, yr,
        calculate_status (some gpa)⟩ : StudentRecord)]).any
          (fun r => r.student_id = sid2) = true) := by
      intro hc
      obtain ⟨r, hr, hp⟩ := List.any_eq_true.mp hc
      rcases List.mem_append.mp hr with hold | hnew
      · exact hs3 r hold (by simpa using hp)
      · rcases List.mem_singleton.mp hnew with rfl
        exact hs2 ((by simpa using hp : sid = sid2)).symm
    have hok : add_student_record
        ⟨db.nextId + 1, db.rows ++ [(⟨db.nextId, sid, nm, age, em, dp, gpa, yr,
          calculate_status (some gpa)⟩ : StudentRecord)]⟩
        sid2 nm age em dp gpa yr
        = .ok ⟨db.nextId + 1 + 1,
               (db.rows ++ [(⟨db.nextId, sid, nm, age, em, dp, gpa, yr,
                 calculate_status (some gpa)⟩ : StudentRecord)])
                 ++ [⟨db.nextId + 1, sid2, nm, age, em, dp, gpa, yr,
                      calculate_status (some gpa)⟩]⟩ := by
      unfold add_student_record
      rw [if_neg hs1, if_neg h2, if_neg hanyF2]
    exact ⟨_, hok⟩

/-- C10 witness: adding the untrimmed id `" S1 "` to the empty store through
`add_verbatim`; instantiating the lookup and re-add parts at the trimmed
form `"S1"` shows the two are kept distinct. -/
theorem add_verbatim_witness :
    ∃ db', add_student_record init_database " S1 " "Ann" 20 "a@x.com"
        "Physics" 2 2026 = .ok db'
      ∧ db'.rows.map (fun r => r.student_id)
          = init_database.rows.map (fun r => r.student_id) ++ [" S1 "]
      ∧ (∃ rec, search_by_student_id db' " S1 " = .ok rec
          ∧ rec.student_id = " S1 " ∧ rec.name = "Ann" ∧ rec.gpa = 2)
      ∧ (∀ q, pyStrip q ≠ "" → q ≠ " S1 " →
          (∀ r ∈ init_database.rows, r.student_id ≠ q) →
          search_by_student_id db' q = .error .studentNotFound)
      ∧ (∀ sid2, pyStrip sid2 ≠ "" → sid2 ≠ " S1 " →
          (∀ r ∈ init_database.rows, r.student_id ≠ sid2) →
          ∃ db'', add_student_record db' sid2 "Ann" 20 "a@x.com" "Physics"
            2 2026 = .ok db'') :=
  add_verbatim init_database " S1 " "Ann" 20 "a@x.com" "Physics" 2 2026
    (by decide) (by decide) (by decide)
